import Mathlib

/-!
Shallow embedding of the export-resolution pipeline of the
simple_SD_export_tester server (src/code_sample.ts): the
POST /api/data/download handler (cache probe, session and export
discovery, payload extraction, content-type normalization, response
assembly, cache population) and the
GET /api/data/versions/:name/:versionNumber handler.

JavaScript strings are Lean `String`, binary buffers are `List Nat`
(byte values), and JavaScript `undefined`/optional object fields are
`Option`.  JavaScript truthiness for the values that actually flow
through these code paths (strings and objects) is modelled explicitly:
an absent field and the empty string are falsy, everything else truthy.
-/

/-- Bytes of a Node `Buffer` / `ArrayBuffer`. -/
abbrev Bytes := List Nat

/-- Truthiness of an optional string: `undefined` and `""` are falsy. -/
def truthy : Option String → Bool
  | none => false
  | some s => if s = "" then false else true

/-- JavaScript `a || b` where `a` is an optional string and `b` a string. -/
def jsOrStr (a : Option String) (b : String) : String :=
  if truthy a then a.getD "" else b

/-- JavaScript `a || b` on two optional strings (value of the or-chain). -/
def jsOrOpt (a b : Option String) : Option String :=
  if truthy a then a else b

/-- JavaScript `a || b` on two plain strings. -/
def jsOrStrS (a b : String) : String :=
  if a = "" then b else a

/-- Is `pre` a prefix of `l`? -/
def isPrefixB [DecidableEq α] : List α → List α → Bool
  | [], _ => true
  | _ :: _, [] => false
  | a :: as, b :: bs => a = b && isPrefixB as bs

/-- Does `sub` occur as a contiguous sublist of `l`?  Models
JavaScript `String.prototype.includes` on the character lists. -/
def containsSubB [DecidableEq α] (sub : List α) : List α → Bool
  | [] => isPrefixB sub []
  | a :: rest => isPrefixB sub (a :: rest) || containsSubB sub rest

/-- JavaScript `s.includes(sub)`. -/
def strIncludes (s sub : String) : Bool :=
  containsSubB sub.data s.data

/-- JavaScript `s.toLowerCase()` (ASCII, which is all the handler
compares). -/
def strLower (s : String) : String :=
  ⟨s.data.map Char.toLower⟩

/-- JavaScript `s.startsWith(pre)`. -/
def strStartsWith (s pre : String) : Bool :=
  isPrefixB pre.data s.data

/-- Value of a base64-alphabet character, `none` for everything else. -/
def b64Val (c : Char) : Option Nat :=
  if 'A' ≤ c ∧ c ≤ 'Z' then some (c.toNat - 65)
  else if 'a' ≤ c ∧ c ≤ 'z' then some (c.toNat - 97 + 26)
  else if '0' ≤ c ∧ c ≤ '9' then some (c.toNat - 48 + 52)
  else if c = '+' then some 62
  else if c = '/' then some 63
  else none

/-- Sextet stream of a base64 string, Node style: characters outside
the alphabet are skipped, the first padding character ends decoding. -/
def b64Sextets : List Char → List Nat
  | [] => []
  | c :: cs =>
    if c = '=' then []
    else
      match b64Val c with
      | some v => v :: b64Sextets cs
      | none => b64Sextets cs

/-- Regroup 6-bit values into bytes; a trailing group shorter than
four sextets contributes its complete bytes only, as Node does. -/
def sextetsToBytes : List Nat → List Nat
  | a :: b :: c :: d :: rest =>
    (a * 4 + b / 16) :: ((b % 16) * 16 + c / 4) :: ((c % 4) * 64 + d) :: sextetsToBytes rest
  | [a, b] => [a * 4 + b / 16]
  | [a, b, c] => [a * 4 + b / 16, (b % 16) * 16 + c / 4]
  | _ => []

/-- Node `Buffer.from(s, "base64")`.  Lenient: invalid characters are
ignored, `=` terminates.  This call never throws, so the
`Buffer.from(payload, "binary")` catch-arm in the source is dead code
and is not modelled. -/
def nodeBase64Decode (s : String) : Bytes :=
  sextetsToBytes (b64Sextets s.data)

/-- The characters after the first comma, `none` when there is none. -/
def afterFirstComma : List Char → Option (List Char)
  | [] => none
  | c :: rest => if c = ',' then some rest else afterFirstComma rest

/-- The characters before the first comma. -/
def upToComma : List Char → List Char
  | [] => []
  | c :: rest => if c = ',' then [] else c :: upToComma rest

/-- JavaScript `payload.split(",")[1] ?? ""`: the segment between the
first and second comma, empty when the string has no comma. -/
def splitComma1 (s : String) : String :=
  match afterFirstComma s.data with
  | none => ""
  | some r => ⟨upToComma r⟩

/-- A JavaScript word character, the `\w` class of the source regex. -/
def isWordChar (c : Char) : Bool :=
  c.isAlphanum || c = '_'

/-- Does `"obj"` (case-insensitive) start the list, with a word
boundary right after it? -/
def objAt (l : List Char) : Bool :=
  match l with
  | o :: b :: j :: rest =>
    o.toLower = 'o' && b.toLower = 'b' && j.toLower = 'j' &&
      (match rest with
       | [] => true
       | r :: _ => !isWordChar r)
  | _ => false

/-- Scan for a word-bounded occurrence of `"obj"`; `prev` is the
character preceding the current position. -/
def objScan (prev : Option Char) : List Char → Bool
  | [] => false
  | c :: rest =>
    ((match prev with
      | none => true
      | some p => !isWordChar p) && objAt (c :: rest)) || objScan (some c) rest

/-- The source regex test `/\b(x-)?obj\b/i.test s`.  Because `-` is
not a word character, the optional `x-` group is redundant: the regex
matches exactly when `"obj"` occurs case-insensitively with a word
boundary on both sides, which is what this function decides. -/
def objWordTest (s : String) : Bool :=
  objScan none s.data

/-- An inline payload value as found in ShapeDiver export results. -/
inductive Payload
  | str (s : String)
  | arrayBuffer (b : Bytes)
  | buffer (b : Bytes)
deriving DecidableEq

/-- Truthiness of an optional payload: absent and `""` are falsy,
buffers (objects) are always truthy. -/
def truthyPay : Option Payload → Bool
  | none => false
  | some (.str s) => if s = "" then false else true
  | some _ => true

/-- JavaScript `a || b` on optional payloads. -/
def jsOrP (a b : Option Payload) : Option Payload :=
  if truthyPay a then a else b

/-- One entry of a result `content` array.  The `url`, `downloadUrl`
and `link` fields can be present on the JavaScript object but are
never read by the handler in the array branch. -/
structure ContentEntry where
  contentType : Option String
  data : Option Payload
  content : Option Payload
  href : Option String
  url : Option String
  downloadUrl : Option String
  link : Option String
  format : Option String
deriving DecidableEq

/-- The `content` field of an export result: either an array of
entries (the `Array.isArray` case) or a direct payload. -/
inductive ContentField
  | arr (entries : List ContentEntry)
  | pay (p : Payload)
deriving DecidableEq

/-- A single export result object returned by `computeExports`. -/
structure ExportResult where
  content : Option ContentField
  data : Option Payload
  href : Option String
  url : Option String
  downloadUrl : Option String
  link : Option String
  format : Option String
deriving DecidableEq

/-- The `content` field viewed as a direct payload (fallback shape). -/
def contentPayload : Option ContentField → Option Payload
  | some (.pay p) => some p
  | _ => none

/-- The comparison inside the `find` callback of the handler:
`(c.contentType || "").toLowerCase() === String(contentType).toLowerCase()`. -/
def ctMatches (c : ContentEntry) (pref : String) : Bool :=
  strLower (jsOrStr c.contentType "") == strLower pref

/-- Entry selection of the handler:
`contentType ? content.find(matching) : content[0]`. -/
def pickContent (pref : Option String) (es : List ContentEntry) : Option ContentEntry :=
  if truthy pref then es.find? (fun c => ctMatches c (pref.getD "")) else es.head?

/-- Decoding of a truthy inline payload in the content-array branch,
including the `data:` URI comma split. -/
def decodeArrPayload (p : Payload) : Bytes :=
  match p with
  | .str s =>
    if strStartsWith s "data:" then nodeBase64Decode (splitComma1 s)
    else nodeBase64Decode s
  | .arrayBuffer b => b
  | .buffer b => b

/-- Decoding of a truthy inline payload in the fallback branch: plain
base64 with no `data:` URI handling. -/
def decodeFallbackPayload (p : Payload) : Bytes :=
  match p with
  | .str s => nodeBase64Decode s
  | .arrayBuffer b => b
  | .buffer b => b

/-- URL-chain of the fallback branch:
`href || url || downloadUrl || link`. -/
def urlChain (d : ExportResult) : Option String :=
  jsOrOpt d.href (jsOrOpt d.url (jsOrOpt d.downloadUrl d.link))

/-- Outcome of the extraction block of the handler. -/
structure ExtractOut where
  fileBuffer : Option Bytes
  picked : Option ContentEntry
  downloadUrl : Option String
deriving DecidableEq

/-- Payload extraction (source lines 581-623): content-array branch
with preferred-type entry selection, inline decodes and `href`;
fallback branch with inline decodes and the four-field URL chain. -/
def extract (pref : Option String) (d : ExportResult) : ExtractOut :=
  match d.content with
  | some (.arr es) =>
    match pickContent pref es with
    | none => ⟨none, none, none⟩
    | some c =>
      match jsOrP c.data c.content with
      | some p =>
        if truthyPay (some p) then ⟨some (decodeArrPayload p), some c, none⟩
        else if truthy c.href then ⟨none, some c, c.href⟩
        else ⟨none, some c, none⟩
      | none =>
        if truthy c.href then ⟨none, some c, c.href⟩
        else ⟨none, some c, none⟩
  | _ =>
    match jsOrP d.data (contentPayload d.content) with
    | some p =>
      if truthyPay (some p) then ⟨some (decodeFallbackPayload p), none, none⟩
      else if truthy (urlChain d) then ⟨none, none, urlChain d⟩
      else ⟨none, none, none⟩
    | none =>
      if truthy (urlChain d) then ⟨none, none, urlChain d⟩
      else ⟨none, none, none⟩

/-- Metadata of one parameter of a ShapeDiver session. -/
structure ParamDef where
  name : Option String
deriving DecidableEq

/-- Metadata of one export of a ShapeDiver session. -/
structure ExportDef where
  name : Option String
  type : Option String
deriving DecidableEq

/-- Data of `createSessionByTicket`: the iteration order of the
JavaScript object entries is the order of the association lists. -/
structure SessionData where
  sessionId : String
  parameters : Option (List (String × ParamDef))
  exports : Option (List (String × ExportDef))

/-- Data of `computeExports`. -/
structure ComputeData where
  exports : Option (List (String × ExportResult))

/-- A `fetch` response. -/
structure FetchResponse where
  ok : Bool
  status : Nat
  statusText : String
  body : Bytes

/-- The loop of step 3 of the handler: first parameter whose declared
name is exactly `"moda-json"`. -/
def findModaParam : List (String × ParamDef) → Option String
  | [] => none
  | (pid, p) :: rest =>
    if p.name = some "moda-json" then some pid else findModaParam rest

/-- The matching condition of the export-discovery loop: type equality
and optional name-substring containment, both case-insensitive. -/
def exportPred (kind : String) (filter : Option String) (e : ExportDef) : Bool :=
  (strLower (jsOrStr e.type "") == strLower kind) &&
    (if truthy filter then strIncludes (strLower (jsOrStr e.name "")) (strLower (filter.getD ""))
     else true)

/-- The loop of step 4 of the handler: first export satisfying
`exportPred`, returning its id and `e.name || exportType`. -/
def findExport (kind : String) (filter : Option String) :
    List (String × ExportDef) → Option (String × String)
  | [] => none
  | (eid, e) :: rest =>
    if exportPred kind filter e then some (eid, jsOrStr e.name kind)
    else findExport kind filter rest

/-- The 404 message of export discovery. -/
def exportNotFoundMsg (kind : String) (filter : Option String) : String :=
  "No export matched type=\"" ++ kind ++ "\"" ++
    (if truthy filter then " and nameContains=\"" ++ filter.getD "" ++ "\"" else "")

/-- `(pickedContent?.format || selectedExportData?.format || "").toLowerCase()`. -/
def normFormat (picked : Option ContentEntry) (d : ExportResult) : String :=
  strLower (jsOrStr (picked.bind ContentEntry.format) (jsOrStr d.format ""))

/-- Content-type normalization of the handler: known format tokens map
to canonical MIME types, otherwise the entry type, the preferred type
or the generic binary type, with the vendor-OBJ rewrite applied only
when the format token is empty. -/
def normalizeCt (format : String) (pickedCt pref : Option String) : String :=
  if format = "pdf" then "application/pdf"
  else if format = "zip" then "application/zip"
  else if format = "obj" then "model/obj"
  else
    let ct := jsOrStr pickedCt (jsOrStr pref "application/octet-stream")
    if format = "" && objWordTest ct then "model/obj" else ct

/-- File-extension derivation of the handler. -/
def normalizeExt (format ct : String) : String :=
  let ext :=
    if format = "" then
      if ct = "application/pdf" then ".pdf"
      else if ct = "application/zip" then ".zip"
      else if ct = "model/obj" then ".obj"
      else ""
    else "." ++ format
  if ext = "" && objWordTest ct then ".obj" else ext

/-- The body of POST /api/data/download. -/
structure DownloadRequest where
  designId : Option String
  exportType : Option String
  exportNameContains : Option String
  contentType : Option String
  bypassCache : Bool
deriving DecidableEq

/-- A cache key: the JavaScript criteria object passed to
`getCachedExport` / `putCachedExport`. -/
structure CacheKey where
  designId : String
  exportType : String
  exportNameContains : Option String
  contentType : Option String
deriving DecidableEq

/-- Modelled from the spec: the shape returned by the `getCachedExport`
collaborator of services/firebaseCache, which is not part of the
sources; section 6 of the spec gives its contract
`get(criteria) -> (hit, buffer?, contentType?, filename?)`. -/
structure CacheGetResult where
  hit : Bool
  buffer : Option Bytes
  contentType : Option String
  filename : Option String
deriving DecidableEq

/-- One `putCachedExport(criteria, buffer, contentType, filename)` call. -/
structure CachePut where
  key : CacheKey
  buffer : Bytes
  contentType : String
  filename : String
deriving DecidableEq

/-- The external collaborators of one request: cache probe results,
session creation outcome, compute outcome and secondary fetch. -/
structure Env where
  cacheGet : CacheKey → CacheGetResult
  session : Except String SessionData
  compute : Except String ComputeData
  fetch : String → FetchResponse

/-- Observable remote and cache effects of one request. -/
structure Effects where
  sessionCalls : Nat
  computeCalls : Nat
  fetchUrls : List String
  cachePuts : List CachePut
deriving DecidableEq

/-- No effect performed. -/
def noEffects : Effects := ⟨0, 0, [], []⟩

/-- The body of an HTTP response: a JSON error object or bytes. -/
inductive RespBody
  | json (error message : String)
  | bytes (b : Bytes)
deriving DecidableEq

/-- An HTTP response with its headers in the order they are set. -/
structure HttpResponse where
  status : Nat
  headers : List (String × String)
  body : RespBody
deriving DecidableEq

/-- The criteria object of the cache probe: the raw request fields. -/
def reqKey (req : DownloadRequest) : CacheKey :=
  ⟨req.designId.getD "", req.exportType.getD "download",
    req.exportNameContains, req.contentType⟩

/-- The cache-hit response of the handler. -/
def hitResponse (c : CacheGetResult) : HttpResponse :=
  let b := c.buffer.getD []
  ⟨200,
    [("X-Cache", "HIT"),
     ("Content-Type", jsOrStr c.contentType "application/octet-stream")] ++
      (if truthy c.filename then
        [("Content-Disposition", "attachment; filename=\"" ++ c.filename.getD "" ++ "\"")]
       else []) ++
      [("Content-Length", toString b.length)],
    .bytes b⟩

/-- Response assembly and cache population of a fresh success (source
lines 637-667): normalization, headers, and the fire-and-forget
`putCachedExport` keyed by the criteria plus the normalized type. -/
def assemble (req : DownloadRequest) (ename : String) (picked : Option ContentEntry)
    (d : ExportResult) (fb : Bytes) (fetches : List String) : HttpResponse × Effects :=
  let exportType := req.exportType.getD "download"
  let format := normFormat picked d
  let ct := normalizeCt format (picked.bind ContentEntry.contentType) req.contentType
  let ext := normalizeExt format ct
  let nm := jsOrStrS ename exportType
  let did := req.designId.getD ""
  let filename := did ++ "_" ++ nm ++ ext
  ( ⟨200,
      [("X-Cache", "MISS"), ("Content-Type", ct),
       ("Content-Disposition", "attachment; filename=\"" ++ filename ++ "\""),
       ("Content-Length", toString fb.length)],
      .bytes fb⟩,
    ⟨1, 1, fetches,
      if req.bypassCache then []
      else [⟨⟨did, exportType, req.exportNameContains, some ct⟩, fb, ct, filename⟩]⟩ )

/-- The pipeline from session creation on (source lines 506-667):
session, parameter discovery, export discovery, computation, result
lookup, extraction, optional secondary fetch, assembly.  Thrown
errors are caught at the request boundary and mapped to a 500
`Download error` JSON body, as in the source. -/
def downloadFresh (req : DownloadRequest) (env : Env) : HttpResponse × Effects :=
  match env.session with
  | .error m =>
    (⟨500, [], .json "Download error" ("Failed to create ShapeDiver session: " ++ m)⟩,
      ⟨1, 0, [], []⟩)
  | .ok sd =>
    match findModaParam (sd.parameters.getD []) with
    | none =>
      (⟨500, [], .json "Download error" "Could not find moda-json input parameter"⟩,
        ⟨1, 0, [], []⟩)
    | some _ =>
      match findExport (req.exportType.getD "download") req.exportNameContains
          (sd.exports.getD []) with
      | none =>
        (⟨404, [], .json "Export not found"
            (exportNotFoundMsg (req.exportType.getD "download") req.exportNameContains)⟩,
          ⟨1, 0, [], []⟩)
      | some (eid, ename) =>
        match env.compute with
        | .error m => (⟨500, [], .json "Download error" m⟩, ⟨1, 1, [], []⟩)
        | .ok cd =>
          match (cd.exports.getD []).lookup eid with
          | none =>
            (⟨500, [], .json "Export missing" "Export not found in results"⟩,
              ⟨1, 1, [], []⟩)
          | some sed =>
            let ex := extract req.contentType sed
            match ex.fileBuffer with
            | some fb => assemble req ename ex.picked sed fb []
            | none =>
              match ex.downloadUrl with
              | some u =>
                let r := env.fetch u
                if r.ok then assemble req ename ex.picked sed r.body [u]
                else
                  (⟨502, [], .json "Download failed"
                      ("Failed to download export: " ++ toString r.status ++ " " ++
                        r.statusText)⟩,
                    ⟨1, 1, [u], []⟩)
              | none =>
                (⟨500, [], .json "No export content"
                    "No file content or URL returned by export"⟩,
                  ⟨1, 1, [], []⟩)

/-- The whole POST /api/data/download handler: designId validation,
optional cache probe, then the fresh pipeline. -/
def downloadCore (req : DownloadRequest) (env : Env) : HttpResponse × Effects :=
  if truthy req.designId = false then
    (⟨400, [], .json "Missing required parameter" "designId is required"⟩, noEffects)
  else if req.bypassCache then downloadFresh req env
  else
    let cached := env.cacheGet (reqKey req)
    if cached.hit && cached.buffer.isSome then (hitResponse cached, noEffects)
    else downloadFresh req env

/-- A handler run together with the fate of the detached cache write:
`putFails` says whether the issued `putCachedExport` promise rejects;
its only observable consequence is the logged warning. -/
structure RunOut where
  resp : HttpResponse
  effects : Effects
  putFailureLogged : Bool

/-- The handler with the fire-and-forget cache write outcome attached:
a failing write is logged and nothing else. -/
def downloadHandler (req : DownloadRequest) (env : Env) (putFails : Bool) : RunOut :=
  ⟨(downloadCore req env).1, (downloadCore req env).2,
    putFails && !(downloadCore req env).2.cachePuts.isEmpty⟩

/-- Modelled from the spec: a cache collaborator state holding at most
one stored artifact, whose probe hits exactly when the probed criteria
equal the stored key (spec section 3, cache-entry invariant, and
section 6, collaborator contract).  The firebaseCache module itself is
not part of the sources. -/
def exactCache (stored : Option CachePut) : CacheKey → CacheGetResult :=
  fun k =>
    match stored with
    | none => ⟨false, none, none, none⟩
    | some p =>
      if k = p.key then ⟨true, some p.buffer, some p.contentType, some p.filename⟩
      else ⟨false, none, none, none⟩

/-- A stored design document as used by the version endpoints. -/
structure DesignDoc where
  id : String
  name : String
  uploadedAt : Int
deriving DecidableEq

/-- Sort order of the version listing: descending `uploadedAt`. -/
def versionRel (a b : DesignDoc) : Prop :=
  b.uploadedAt ≤ a.uploadedAt

instance : DecidableRel versionRel :=
  fun a b => inferInstanceAs (Decidable (b.uploadedAt ≤ a.uploadedAt))

instance : IsTotal DesignDoc versionRel :=
  ⟨fun a b => le_total b.uploadedAt a.uploadedAt⟩

instance : IsTrans DesignDoc versionRel :=
  ⟨fun _ _ _ h1 h2 => le_trans h2 h1⟩

/-- `collection.find({name}).sort({uploadedAt: -1})`: the documents of
one name in descending upload order. -/
def sortVersions (docs : List DesignDoc) : List DesignDoc :=
  List.insertionSort versionRel docs

/-- The range message of the version endpoint. -/
def rangeMsg (v : Int) (count : Nat) : String :=
  "Version " ++ toString v ++ " does not exist. Available versions: 0-" ++
    toString (count - 1)

/-- Responses of GET /api/data/versions/:name/:versionNumber. -/
inductive VersionResp
  | badRequest (error message : String)
  | notFound (error : String) (message : Option String)
  | ok (doc : DesignDoc) (versionNumber : Nat) (totalVersions : Nat) (isCurrent : Bool)
deriving DecidableEq

/-- The GET /api/data/versions/:name/:versionNumber handler over the
documents stored under the requested name; `vn` is the `parseInt`
result of the path segment, `none` when it is `NaN`. -/
def versionHandler (docs : List DesignDoc) (vn : Option Int) : VersionResp :=
  match vn with
  | none =>
    .badRequest "Invalid version number"
      "Version number must be a non-negative integer (0 = current, 1 = previous, etc.)"
  | some v =>
    if v < 0 then
      .badRequest "Invalid version number"
        "Version number must be a non-negative integer (0 = current, 1 = previous, etc.)"
    else
      let versions := sortVersions docs
      if versions.length = 0 then
        .notFound "No versions found for this design name" none
      else if (versions.length : Int) ≤ v then
        .notFound "Version not found" (some (rangeMsg v versions.length))
      else
        .ok (versions.getD v.toNat ⟨"", "", 0⟩) v.toNat versions.length (v == 0)

/-- The selection rule as claim C1 words it: with a preferred content
type, the matching entry, else the first entry of the array. -/
def pickContentClaimC1 (pref : String) (es : List ContentEntry) : Option ContentEntry :=
  match es.find? (fun c => ctMatches c pref) with
  | some c => some c
  | none => es.head?


/-! ## Helper lemmas -/

/-- When the designId is present and either the cache is bypassed or
the probe does not produce a usable entry, the handler runs the fresh
pipeline. -/
theorem downloadCore_eq_fresh (req : DownloadRequest) (env : Env)
    (hd : truthy req.designId = true)
    (hnc : req.bypassCache = true ∨
      ((env.cacheGet (reqKey req)).hit && (env.cacheGet (reqKey req)).buffer.isSome) = false) :
    downloadCore req env = downloadFresh req env := by
  unfold downloadCore
  rw [hd]
  rcases hnc with h | h
  · simp [h]
  · by_cases hb : req.bypassCache
    · simp [hb]
    · simp [hb, h]

/-- First-match characterization of `List.find?`. -/
theorem find?_eq_some_iff_first {α : Type} (p : α → Bool) (l : List α) (e : α) :
    l.find? p = some e ↔
      ∃ pre post, l = pre ++ e :: post ∧ p e = true ∧ ∀ q ∈ pre, p q = false := by
  induction l with
  | nil => simp
  | cons a rest ih =>
    by_cases h : p a = true
    · simp only [List.find?, h]
      constructor
      · intro he
        injection he with he
        exact ⟨[], rest, by simp [he], he ▸ h, by simp⟩
      · rintro ⟨pre, post, hl, hp, hpre⟩
        cases pre with
        | nil =>
          simp only [List.nil_append, List.cons.injEq] at hl
          exact congrArg some hl.1
        | cons q pre' =>
          simp only [List.cons_append, List.cons.injEq] at hl
          have := hpre q (by simp)
          rw [hl.1] at h
          simp [h] at this
    · have h' : p a = false := by
        cases hpa : p a
        · rfl
        · exact absurd hpa h
      simp only [List.find?, h']
      rw [ih]
      constructor
      · rintro ⟨pre, post, hl, hp, hpre⟩
        refine ⟨a :: pre, post, by simp [hl], hp, ?_⟩
        intro q hq
        rcases List.mem_cons.1 hq with rfl | hq
        · exact h'
        · exact hpre q hq
      · rintro ⟨pre, post, hl, hp, hpre⟩
        cases pre with
        | nil =>
          simp only [List.nil_append, List.cons.injEq] at hl
          rw [hl.1] at h'
          rw [h'] at hp
          exact absurd hp (by simp)
        | cons q pre' =>
          simp only [List.cons_append, List.cons.injEq] at hl
          refine ⟨pre', post, hl.2, hp, ?_⟩
          intro r hr
          exact hpre r (by simp [hr])

/-- First-match characterization of the export-discovery loop. -/
theorem findExport_eq_some_iff (kind : String) (filter : Option String)
    (l : List (String × ExportDef)) (eid nm : String) :
    findExport kind filter l = some (eid, nm) ↔
      ∃ pre e post, l = pre ++ (eid, e) :: post ∧ exportPred kind filter e = true ∧
        nm = jsOrStr e.name kind ∧ ∀ q ∈ pre, exportPred kind filter q.2 = false := by
  induction l with
  | nil => simp [findExport]
  | cons p rest ih =>
    obtain ⟨i, e0⟩ := p
    by_cases h : exportPred kind filter e0 = true
    · simp only [findExport, h, if_true]
      constructor
      · intro he
        injection he with he
        have h1 : i = eid := congrArg Prod.fst he
        have h2 : jsOrStr e0.name kind = nm := congrArg Prod.snd he
        subst h1
        exact ⟨[], e0, rest, by simp, h, h2.symm, by simp⟩
      · rintro ⟨pre, e, post, hl, hp, hnm, hpre⟩
        cases pre with
        | nil =>
          simp only [List.nil_append, List.cons.injEq, Prod.mk.injEq] at hl
          rw [hl.1.1, hl.1.2, hnm]
        | cons q pre' =>
          simp only [List.cons_append, List.cons.injEq] at hl
          have := hpre q (by simp)
          obtain ⟨hq1, _⟩ := hl
          subst hq1
          simp only at this
          rw [h] at this
          exact absurd this (by simp)
    · have h' : exportPred kind filter e0 = false := by
        cases hpa : exportPred kind filter e0
        · rfl
        · exact absurd hpa h
      simp only [findExport, h', if_false, Bool.false_eq_true]
      rw [ih]
      constructor
      · rintro ⟨pre, e, post, hl, hp, hnm, hpre⟩
        refine ⟨(i, e0) :: pre, e, post, by simp [hl], hp, hnm, ?_⟩
        intro q hq
        rcases List.mem_cons.1 hq with rfl | hq
        · exact h'
        · exact hpre q hq
      · rintro ⟨pre, e, post, hl, hp, hnm, hpre⟩
        cases pre with
        | nil =>
          simp only [List.nil_append, List.cons.injEq, Prod.mk.injEq] at hl
          rw [← hl.1.2] at hp
          rw [hp] at h'
          exact absurd h' (by simp)
        | cons q pre' =>
          simp only [List.cons_append, List.cons.injEq] at hl
          refine ⟨pre', e, post, hl.2, hp, hnm, ?_⟩
          intro r hr
          exact hpre r (by simp [hr])

/-! ## Claim theorems -/

/-- A usable cache hit with truthy fields short-circuits the handler:
the cached artifact is served and nothing else happens. -/
theorem downloadCore_hit_served (req : DownloadRequest) (env : Env)
    (b : Bytes) (ct fn : String)
    (hd : truthy req.designId = true)
    (hby : req.bypassCache = false)
    (hget : env.cacheGet (reqKey req) = ⟨true, some b, some ct, some fn⟩)
    (hct : ct ≠ "") (hfn : fn ≠ "") :
    downloadCore req env =
      (⟨200,
        [("X-Cache", "HIT"), ("Content-Type", ct),
         ("Content-Disposition", "attachment; filename=\"" ++ fn ++ "\""),
         ("Content-Length", toString b.length)],
        .bytes b⟩,
       noEffects) := by
  unfold downloadCore
  rw [hd, hby, hget]
  simp [hitResponse, jsOrStr, truthy, hct, hfn]

/-- Claim C3: for every download request with bypassCache=false whose
selection criteria hit the cache, the handler returns the cached
bytes, content-type and filename verbatim with an X-Cache: HIT header,
and performs no session creation, no compute call, no fetch and no
cache write. -/
theorem C3_cache_hit_served_verbatim (req : DownloadRequest) (env : Env)
    (b : Bytes) (ct fn : String)
    (hd : truthy req.designId = true)
    (hby : req.bypassCache = false)
    (hget : env.cacheGet (reqKey req) = ⟨true, some b, some ct, some fn⟩)
    (hct : ct ≠ "") (hfn : fn ≠ "") :
    downloadCore req env =
      (⟨200,
        [("X-Cache", "HIT"), ("Content-Type", ct),
         ("Content-Disposition", "attachment; filename=\"" ++ fn ++ "\""),
         ("Content-Length", toString b.length)],
        .bytes b⟩,
       noEffects) :=
  downloadCore_hit_served req env b ct fn hd hby hget hct hfn

/-- Witness for C3 at a concrete request and cache entry. -/
theorem C3_witness :
    downloadCore ⟨some "d1", none, none, none, false⟩
      ⟨fun _ => ⟨true, some [7], some "text/plain", some "f.txt"⟩,
       .error "down", .error "down", fun _ => ⟨false, 0, "", []⟩⟩ =
      (⟨200,
        [("X-Cache", "HIT"), ("Content-Type", "text/plain"),
         ("Content-Disposition", "attachment; filename=\"" ++ "f.txt" ++ "\""),
         ("Content-Length", toString ([7] : Bytes).length)],
        .bytes [7]⟩,
       noEffects) :=
  C3_cache_hit_served_verbatim _ _ [7] "text/plain" "f.txt" (by decide) rfl rfl
    (by decide) (by decide)

/-- Claim C10: when the compute result has no exports map, or its
exports map has no entry for the selected export id, the handler
answers 500 with JSON body error "Export missing", message
"Export not found in results", after the compute call and before any
extraction effect (no fetch, no cache write). -/
theorem C10_export_missing (req : DownloadRequest) (env : Env)
    (sd : SessionData) (pid eid ename : String) (cd : ComputeData)
    (hd : truthy req.designId = true)
    (hnc : req.bypassCache = true ∨
      ((env.cacheGet (reqKey req)).hit && (env.cacheGet (reqKey req)).buffer.isSome) = false)
    (hsess : env.session = .ok sd)
    (hparam : findModaParam (sd.parameters.getD []) = some pid)
    (hexp : findExport (req.exportType.getD "download") req.exportNameContains
      (sd.exports.getD []) = some (eid, ename))
    (hcomp : env.compute = .ok cd)
    (hlook : (cd.exports.getD []).lookup eid = none) :
    downloadCore req env =
      (⟨500, [], .json "Export missing" "Export not found in results"⟩,
       ⟨1, 1, [], []⟩) := by
  rw [downloadCore_eq_fresh req env hd hnc]
  simp only [downloadFresh, hsess, hparam, hexp, hcomp, hlook]

/-- Witness for C10: a compute result whose exports map lacks the
selected id. -/
theorem C10_witness :
    downloadCore ⟨some "d1", none, none, none, true⟩
      ⟨fun _ => ⟨false, none, none, none⟩,
       .ok ⟨"s1", some [("p1", ⟨some "moda-json"⟩)],
         some [("e1", ⟨some "report", some "download"⟩)]⟩,
       .ok ⟨some []⟩, fun _ => ⟨false, 0, "", []⟩⟩ =
      (⟨500, [], .json "Export missing" "Export not found in results"⟩,
       ⟨1, 1, [], []⟩) :=
  C10_export_missing _ _
    ⟨"s1", some [("p1", ⟨some "moda-json"⟩)], some [("e1", ⟨some "report", some "download"⟩)]⟩
    "p1" "e1" "report" ⟨some []⟩
    (by decide) (Or.inl rfl) rfl (by decide) (by decide) rfl (by decide)

/-- Claim C9: the version endpoint validates the index (NaN or a
negative value gives 400), serves the document at 0-based position v
of the sequence sorted descending by uploadedAt (the sorted sequence
being a descending-sorted permutation of the stored documents, so
index 0 is most recent), and answers any v at or beyond the count
with a 404 naming the range 0..count-1. -/
theorem C9_version_resolution (docs : List DesignDoc) (v : Int) (hne : docs ≠ []) :
    (sortVersions docs).Perm docs ∧
    List.Sorted versionRel (sortVersions docs) ∧
    versionHandler docs none =
      .badRequest "Invalid version number"
        "Version number must be a non-negative integer (0 = current, 1 = previous, etc.)" ∧
    (v < 0 → versionHandler docs (some v) =
      .badRequest "Invalid version number"
        "Version number must be a non-negative integer (0 = current, 1 = previous, etc.)") ∧
    (0 ≤ v → v < (docs.length : Int) →
      versionHandler docs (some v) =
        .ok ((sortVersions docs).getD v.toNat ⟨"", "", 0⟩) v.toNat docs.length (v == 0)) ∧
    ((docs.length : Int) ≤ v →
      versionHandler docs (some v) =
        .notFound "Version not found" (some (rangeMsg v docs.length))) := by
  have hperm : (sortVersions docs).Perm docs := List.perm_insertionSort _ _
  have hsorted : List.Sorted versionRel (sortVersions docs) :=
    List.sorted_insertionSort _ _
  have hlen : (sortVersions docs).length = docs.length := hperm.length_eq
  refine ⟨hperm, hsorted, rfl, ?_, ?_, ?_⟩
  · intro hv
    simp [versionHandler, hv]
  · intro h0 hlt
    have hnv : ¬ v < 0 := by omega
    have hne0 : ¬ (sortVersions docs).length = 0 := by
      rw [hlen]
      intro h
      exact hne (List.length_eq_zero.1 h)
    have hge : ¬ ((docs.length : Int) ≤ v) := by omega
    simp [versionHandler, hnv, hne0, hne, hge, hlen]
  · intro hge
    have hnv : ¬ v < 0 := by
      have : (0 : Int) ≤ docs.length := by positivity
      omega
    have hne0 : ¬ (sortVersions docs).length = 0 := by
      rw [hlen]
      intro h
      exact hne (List.length_eq_zero.1 h)
    simp [versionHandler, hnv, hne0, hne, hge, hlen]

/-- Witness for C9 at three documents of one name with distinct
timestamps and version index 1. -/
theorem C9_witness :
    (sortVersions [⟨"a", "n", 1⟩, ⟨"c", "n", 3⟩, ⟨"b", "n", 2⟩]).Perm
      [⟨"a", "n", 1⟩, ⟨"c", "n", 3⟩, ⟨"b", "n", 2⟩] ∧
    List.Sorted versionRel (sortVersions [⟨"a", "n", 1⟩, ⟨"c", "n", 3⟩, ⟨"b", "n", 2⟩]) ∧
    versionHandler [⟨"a", "n", 1⟩, ⟨"c", "n", 3⟩, ⟨"b", "n", 2⟩] none =
      .badRequest "Invalid version number"
        "Version number must be a non-negative integer (0 = current, 1 = previous, etc.)" ∧
    ((1 : Int) < 0 → versionHandler [⟨"a", "n", 1⟩, ⟨"c", "n", 3⟩, ⟨"b", "n", 2⟩] (some 1) =
      .badRequest "Invalid version number"
        "Version number must be a non-negative integer (0 = current, 1 = previous, etc.)") ∧
    ((0 : Int) ≤ 1 → (1 : Int) < (([⟨"a", "n", 1⟩, ⟨"c", "n", 3⟩, ⟨"b", "n", 2⟩] : List DesignDoc).length : Int) →
      versionHandler [⟨"a", "n", 1⟩, ⟨"c", "n", 3⟩, ⟨"b", "n", 2⟩] (some 1) =
        .ok ((sortVersions [⟨"a", "n", 1⟩, ⟨"c", "n", 3⟩, ⟨"b", "n", 2⟩]).getD (1 : Int).toNat ⟨"", "", 0⟩)
          (1 : Int).toNat ([⟨"a", "n", 1⟩, ⟨"c", "n", 3⟩, ⟨"b", "n", 2⟩] : List DesignDoc).length ((1 : Int) == 0)) ∧
    ((([⟨"a", "n", 1⟩, ⟨"c", "n", 3⟩, ⟨"b", "n", 2⟩] : List DesignDoc).length : Int) ≤ 1 →
      versionHandler [⟨"a", "n", 1⟩, ⟨"c", "n", 3⟩, ⟨"b", "n", 2⟩] (some 1) =
        .notFound "Version not found"
          (some (rangeMsg 1 ([⟨"a", "n", 1⟩, ⟨"c", "n", 3⟩, ⟨"b", "n", 2⟩] : List DesignDoc).length))) :=
  C9_version_resolution [⟨"a", "n", 1⟩, ⟨"c", "n", 3⟩, ⟨"b", "n", 2⟩] 1 (by decide)

/-- Counterexample to claim C1: with preferred content type "b" and a
content array whose only entry declares type "a", the handler picks no
entry at all, while the claimed rule falls back to the first entry. -/
theorem C1_counterexample :
    pickContent (some "b")
      [⟨some "a", some (.str "x"), none, none, none, none, none, none⟩] = none ∧
    pickContentClaimC1 "b"
      [⟨some "a", some (.str "x"), none, none, none, none, none, none⟩] =
      some ⟨some "a", some (.str "x"), none, none, none, none, none, none⟩ :=
  ⟨by decide, by decide⟩

/-- Claim C1 amended: with a truthy preferred content type the handler
picks exactly the first entry whose declared content-type equals it
case-insensitively and picks nothing when no entry matches; the
first-entry fallback applies only when no preferred content type is
supplied. -/
theorem C1_pick_entry (p : String) (es : List ContentEntry) :
    (p ≠ "" → ∀ e, pickContent (some p) es = some e ↔
      ∃ pre post, es = pre ++ e :: post ∧ ctMatches e p = true ∧
        ∀ q ∈ pre, ctMatches q p = false) ∧
    (p ≠ "" → (∀ e ∈ es, ctMatches e p = false) → pickContent (some p) es = none) ∧
    pickContent none es = es.head? := by
  refine ⟨?_, ?_, by simp [pickContent, truthy]⟩
  · intro hp e
    have ht : truthy (some p) = true := by simp [truthy, hp]
    simp only [pickContent, ht, if_true, Option.getD_some]
    exact find?_eq_some_iff_first _ es e
  · intro hp hall
    have ht : truthy (some p) = true := by simp [truthy, hp]
    simp only [pickContent, ht, if_true, Option.getD_some]
    rw [List.find?_eq_none]
    intro x hx
    simp [hall x hx]

/-- Witness for C1 amended: a second entry matching the preferred type
is picked past a non-matching first entry; a non-matching array picks
nothing; without a preference the first entry is picked. -/
theorem C1_witness :
    pickContent (some "B")
      [⟨some "a", none, none, none, none, none, none, none⟩,
       ⟨some "b", none, none, none, none, none, none, none⟩] =
      some ⟨some "b", none, none, none, none, none, none, none⟩ ∧
    pickContent (some "z")
      [⟨some "a", none, none, none, none, none, none, none⟩] = none ∧
    pickContent none
      [⟨some "a", none, none, none, none, none, none, none⟩] =
      ([⟨some "a", none, none, none, none, none, none, none⟩] : List ContentEntry).head? :=
  ⟨((C1_pick_entry "B" _).1 (by decide) _).mpr
      ⟨[⟨some "a", none, none, none, none, none, none, none⟩], [], rfl, by decide, by decide⟩,
   (C1_pick_entry "z" _).2.1 (by decide) (by decide),
   (C1_pick_entry "x" _).2.2⟩

/-- Claim C6: export discovery selects the first export in mapping
iteration order satisfying the type and optional name conditions, and
when no export satisfies them the request fails with a 404 whose
error is "Export not found" and whose message spells out the
attempted type and, when supplied, the name filter. -/
theorem C6_export_discovery :
    (∀ (kind : String) (filter : Option String) (l : List (String × ExportDef)) (eid nm : String),
      findExport kind filter l = some (eid, nm) ↔
        ∃ pre e post, l = pre ++ (eid, e) :: post ∧ exportPred kind filter e = true ∧
          nm = jsOrStr e.name kind ∧ ∀ q ∈ pre, exportPred kind filter q.2 = false) ∧
    (∀ (req : DownloadRequest) (env : Env) (sd : SessionData) (pid : String),
      truthy req.designId = true →
      (req.bypassCache = true ∨
        ((env.cacheGet (reqKey req)).hit && (env.cacheGet (reqKey req)).buffer.isSome) = false) →
      env.session = .ok sd →
      findModaParam (sd.parameters.getD []) = some pid →
      findExport (req.exportType.getD "download") req.exportNameContains
        (sd.exports.getD []) = none →
      downloadCore req env =
        (⟨404, [], .json "Export not found"
            ("No export matched type=\"" ++ req.exportType.getD "download" ++ "\"" ++
              (if truthy req.exportNameContains then
                " and nameContains=\"" ++ req.exportNameContains.getD "" ++ "\""
               else ""))⟩,
         ⟨1, 0, [], []⟩)) := by
  constructor
  · exact findExport_eq_some_iff
  · intro req env sd pid hd hnc hsess hparam hnone
    rw [downloadCore_eq_fresh req env hd hnc]
    simp only [downloadFresh, hsess, hparam, hnone]
    rfl

/-- Witness for C6: a matching second export is selected past a
non-matching first one, and a filter that matches nothing produces the
404 with both criteria in the message. -/
theorem C6_witness :
    findExport "download" (some "pdf")
      [("e1", ⟨some "Report CSV", some "download"⟩),
       ("e2", ⟨some "Report PDF", some "download"⟩)] = some ("e2", "Report PDF") ∧
    downloadCore ⟨some "d1", none, some "xyz", none, true⟩
      ⟨fun _ => ⟨false, none, none, none⟩,
       .ok ⟨"s1", some [("p1", ⟨some "moda-json"⟩)],
         some [("e1", ⟨some "Report CSV", some "download"⟩)]⟩,
       .ok ⟨some []⟩, fun _ => ⟨false, 0, "", []⟩⟩ =
      (⟨404, [], .json "Export not found"
          ("No export matched type=\"" ++ "download" ++ "\"" ++
            (if truthy (some "xyz") then " and nameContains=\"" ++ "xyz" ++ "\"" else ""))⟩,
       ⟨1, 0, [], []⟩) :=
  ⟨(C6_export_discovery.1 "download" (some "pdf") _ "e2" "Report PDF").mpr
      ⟨[("e1", ⟨some "Report CSV", some "download"⟩)],
        ⟨some "Report PDF", some "download"⟩, [], rfl, by decide, by decide, by decide⟩,
   C6_export_discovery.2 _ _
     ⟨"s1", some [("p1", ⟨some "moda-json"⟩)], some [("e1", ⟨some "Report CSV", some "download"⟩)]⟩
     "p1" (by decide) (Or.inl rfl) rfl (by decide) (by decide)⟩

/-- Counterexample to claim C7: with format token "stl" and a resolved
content type matching the vendor OBJ pattern, the handler keeps the
content type (and derives extension ".stl"), contradicting the claimed
rewrite regardless of the format token. -/
theorem C7_counterexample :
    objWordTest "text/x-obj" = true ∧
    normalizeCt "stl" (some "text/x-obj") none = "text/x-obj" ∧
    normalizeExt "stl" "text/x-obj" = ".stl" :=
  ⟨by decide, by decide, by decide⟩

/-- Claim C7 amended: the vendor-OBJ rewrite applies only when the
format token is empty.  With an empty token and a resolved type
matching the word-bounded pattern of the source regex the result is
model/obj with extension .obj; with any nonempty unknown token the
chained content type is kept unchanged. -/
theorem C7_obj_normalization (pickedCt pref : Option String) (format : String) :
    (objWordTest (jsOrStr pickedCt (jsOrStr pref "application/octet-stream")) = true →
      normalizeCt "" pickedCt pref = "model/obj") ∧
    normalizeExt "" "model/obj" = ".obj" ∧
    (format ≠ "" → format ≠ "pdf" → format ≠ "zip" → format ≠ "obj" →
      normalizeCt format pickedCt pref =
        jsOrStr pickedCt (jsOrStr pref "application/octet-stream")) := by
  refine ⟨?_, by decide, ?_⟩
  · intro h
    simp [normalizeCt, h]
  · intro h1 h2 h3 h4
    simp [normalizeCt, h1, h2, h3, h4]

/-- Witness for C7 amended: a vendor type without a format token is
rewritten, and the same type with format token "stl" is kept. -/
theorem C7_witness :
    normalizeCt "" (some "text/x-obj") none = "model/obj" ∧
    normalizeExt "" "model/obj" = ".obj" ∧
    normalizeCt "stl" (some "text/x-obj") none =
      jsOrStr (some "text/x-obj") (jsOrStr none "application/octet-stream") :=
  ⟨(C7_obj_normalization (some "text/x-obj") none "stl").1 (by decide),
   (C7_obj_normalization (some "text/x-obj") none "stl").2.1,
   (C7_obj_normalization (some "text/x-obj") none "stl").2.2
     (by decide) (by decide) (by decide) (by decide)⟩

/-- Counterexample to claim C2: a data: URI payload in the fallback
result-object shape is base64-decoded whole; the produced bytes are
not the decoding of the portion after the first comma. -/
theorem C2_counterexample :
    splitComma1 "data:,aGk=" = "aGk=" ∧
    (extract none ⟨none, some (.str "data:,aGk="), none, none, none, none, none⟩).fileBuffer =
      some (nodeBase64Decode "data:,aGk=") ∧
    (extract none ⟨none, some (.str "data:,aGk="), none, none, none, none, none⟩).fileBuffer ≠
      some (nodeBase64Decode (splitComma1 "data:,aGk=")) :=
  ⟨by decide, by decide, by decide⟩

/-- Claim C2 amended: the data: URI comma split applies only to string
payloads of the picked content-array entry, where the bytes are the
base64 decoding of the split(",")[1] segment; in the fallback
result-object shape a string payload is base64-decoded whole, with no
data: URI handling. -/
theorem C2_data_uri_decoding :
    (∀ (pref : Option String) (d : ExportResult) (es : List ContentEntry)
        (c : ContentEntry) (s : String),
      d.content = some (.arr es) →
      pickContent pref es = some c →
      jsOrP c.data c.content = some (.str s) →
      s ≠ "" →
      strStartsWith s "data:" = true →
      (extract pref d).fileBuffer = some (nodeBase64Decode (splitComma1 s))) ∧
    (∀ (pref : Option String) (d : ExportResult) (s : String),
      (∀ es, d.content ≠ some (.arr es)) →
      jsOrP d.data (contentPayload d.content) = some (.str s) →
      s ≠ "" →
      (extract pref d).fileBuffer = some (nodeBase64Decode s)) := by
  constructor
  · intro pref d es c s harr hpick hor hs hstart
    simp [extract, harr, hpick, hor, truthyPay, hs, decodeArrPayload, hstart]
  · intro pref d s hne hor hs
    rcases hd : d.content with _ | cf
    · rw [hd] at hor
      simp [extract, hd, hor, truthyPay, hs, decodeFallbackPayload]
    · cases cf with
      | arr es => exact absurd hd (hne es)
      | pay p =>
        rw [hd] at hor
        simp [extract, hd, hor, truthyPay, hs, decodeFallbackPayload]

/-- Witness for C2 amended: the array-entry path splits the data: URI
at the comma, the fallback path decodes the whole string. -/
theorem C2_witness :
    (extract none ⟨some (.arr [⟨some "t", some (.str "data:x,aGk="), none, none, none, none, none, none⟩]),
        none, none, none, none, none, none⟩).fileBuffer =
      some (nodeBase64Decode (splitComma1 "data:x,aGk=")) ∧
    (extract none ⟨none, some (.str "aGk="), none, none, none, none, none⟩).fileBuffer =
      some (nodeBase64Decode "aGk=") :=
  ⟨C2_data_uri_decoding.1 none _ [⟨some "t", some (.str "data:x,aGk="), none, none, none, none, none, none⟩]
      ⟨some "t", some (.str "data:x,aGk="), none, none, none, none, none, none⟩ "data:x,aGk="
      rfl (by decide) (by decide) (by decide) (by decide),
   C2_data_uri_decoding.2 none _ "aGk=" (fun es h => Option.noConfusion h)
      (by decide) (by decide)⟩

/-- In the fallback shape without a truthy inline payload, extraction
yields no bytes and the URL of the href/url/downloadUrl/link chain. -/
theorem extract_fallback_nopayload (pref : Option String) (d : ExportResult)
    (hne : ∀ es, d.content ≠ some (.arr es))
    (htr : truthyPay (jsOrP d.data (contentPayload d.content)) = false) :
    extract pref d = ⟨none, none, if truthy (urlChain d) then urlChain d else none⟩ := by
  rcases hd : d.content with _ | cf
  · rw [hd] at htr
    rcases hv : jsOrP d.data (contentPayload none) with _ | p
    · simp only [extract, hd, hv]
      split <;> rfl
    · rw [hv] at htr
      simp only [extract, hd, hv, htr, Bool.false_eq_true, if_false]
      split <;> rfl
  · cases cf with
    | arr es => exact absurd hd (hne es)
    | pay p =>
      rw [hd] at htr
      rcases hv : jsOrP d.data (contentPayload (some (.pay p))) with _ | q
      · simp only [extract, hd, hv]
        split <;> rfl
      · rw [hv] at htr
        simp only [extract, hd, hv, htr, Bool.false_eq_true, if_false]
        split <;> rfl

/-- In the content-array shape, when the picked entry has no truthy
inline payload, extraction yields no bytes and consults only the
entry's href field. -/
theorem extract_arr_nopayload (pref : Option String) (d : ExportResult)
    (es : List ContentEntry) (c : ContentEntry)
    (harr : d.content = some (.arr es))
    (hpick : pickContent pref es = some c)
    (htr : truthyPay (jsOrP c.data c.content) = false) :
    extract pref d = ⟨none, some c, if truthy c.href then c.href else none⟩ := by
  rcases hv : jsOrP c.data c.content with _ | p
  · simp only [extract, harr, hpick, hv]
    split <;> rfl
  · rw [hv] at htr
    simp only [extract, harr, hpick, hv, htr, Bool.false_eq_true, if_false]
    split <;> rfl

/-- Counterexample to claim C8: a content-array entry carrying a url
field but no href and no inline payload is not fetched; the handler
ends with 500 "No export content" and performs no GET. -/
theorem C8_counterexample :
    (extract none ⟨some (.arr [⟨none, none, none, none, some "http://x", none, none, none⟩]),
        none, none, none, none, none, none⟩).downloadUrl = none ∧
    downloadCore ⟨some "d1", none, none, none, true⟩
      ⟨fun _ => ⟨false, none, none, none⟩,
       .ok ⟨"s1", some [("p1", ⟨some "moda-json"⟩)],
         some [("e1", ⟨some "r", some "download"⟩)]⟩,
       .ok ⟨some [("e1", ⟨some (.arr [⟨none, none, none, none, some "http://x", none, none, none⟩]),
         none, none, none, none, none, none⟩)]⟩,
       fun _ => ⟨true, 200, "OK", [9]⟩⟩ =
      (⟨500, [], .json "No export content" "No file content or URL returned by export"⟩,
       ⟨1, 1, [], []⟩) :=
  ⟨by decide, by decide⟩

/-- Claim C8 amended: with no truthy inline payload, the fallback
result-object shape consults href, url, downloadUrl, link in that
priority, while the picked content-array entry consults only href;
the chosen URL is fetched with a single GET, a non-success status
yields the 502 "Download failed" error and a success makes the
response body the fetched bytes. -/
theorem C8_url_fallback_fetch :
    (∀ (pref : Option String) (d : ExportResult),
      (∀ es, d.content ≠ some (.arr es)) →
      truthyPay (jsOrP d.data (contentPayload d.content)) = false →
      extract pref d = ⟨none, none, if truthy (urlChain d) then urlChain d else none⟩) ∧
    (∀ (pref : Option String) (d : ExportResult) (es : List ContentEntry) (c : ContentEntry),
      d.content = some (.arr es) →
      pickContent pref es = some c →
      truthyPay (jsOrP c.data c.content) = false →
      extract pref d = ⟨none, some c, if truthy c.href then c.href else none⟩) ∧
    (∀ (req : DownloadRequest) (env : Env) (sd : SessionData) (pid eid ename : String)
        (cd : ComputeData) (sed : ExportResult) (u : String),
      truthy req.designId = true →
      (req.bypassCache = true ∨
        ((env.cacheGet (reqKey req)).hit && (env.cacheGet (reqKey req)).buffer.isSome) = false) →
      env.session = .ok sd →
      findModaParam (sd.parameters.getD []) = some pid →
      findExport (req.exportType.getD "download") req.exportNameContains
        (sd.exports.getD []) = some (eid, ename) →
      env.compute = .ok cd →
      (cd.exports.getD []).lookup eid = some sed →
      (extract req.contentType sed).fileBuffer = none →
      (extract req.contentType sed).downloadUrl = some u →
      ((env.fetch u).ok = false →
        downloadCore req env =
          (⟨502, [], .json "Download failed"
              ("Failed to download export: " ++ toString (env.fetch u).status ++ " " ++
                (env.fetch u).statusText)⟩,
           ⟨1, 1, [u], []⟩)) ∧
      ((env.fetch u).ok = true →
        (downloadCore req env).1.status = 200 ∧
        (downloadCore req env).1.body = .bytes (env.fetch u).body ∧
        (downloadCore req env).2.fetchUrls = [u])) := by
  refine ⟨extract_fallback_nopayload, extract_arr_nopayload, ?_⟩
  intro req env sd pid eid ename cd sed u hd hnc hsess hparam hexp hcomp hlook hfb hurl
  rw [downloadCore_eq_fresh req env hd hnc]
  constructor
  · intro hnok
    simp only [downloadFresh, hsess, hparam, hexp, hcomp, hlook, hfb, hurl, hnok,
      Bool.false_eq_true, if_false]
  · intro hok
    simp only [downloadFresh, hsess, hparam, hexp, hcomp, hlook, hfb, hurl, hok, if_true]
    simp [assemble]

/-- Witness for C8 amended: href wins the fallback chain, the array
entry exposes only href, a failing GET gives 502 and a successful GET
produces the fetched bytes. -/
theorem C8_witness :
    extract none ⟨none, none, some "http://u", some "http://v", none, none, none⟩ =
      ⟨none, none, some "http://u"⟩ ∧
    extract none ⟨some (.arr [⟨none, none, none, some "http://h", some "http://x", none, none, none⟩]),
        none, none, none, none, none, none⟩ =
      ⟨none, some ⟨none, none, none, some "http://h", some "http://x", none, none, none⟩,
        some "http://h"⟩ ∧
    downloadCore ⟨some "d1", none, none, none, true⟩
      ⟨fun _ => ⟨false, none, none, none⟩,
       .ok ⟨"s1", some [("p1", ⟨some "moda-json"⟩)],
         some [("e1", ⟨some "r", some "download"⟩)]⟩,
       .ok ⟨some [("e1", ⟨none, none, some "http://u", some "http://v", none, none, none⟩)]⟩,
       fun _ => ⟨false, 503, "Service Unavailable", []⟩⟩ =
      (⟨502, [], .json "Download failed"
          ("Failed to download export: " ++ toString (503 : Nat) ++ " " ++ "Service Unavailable")⟩,
       ⟨1, 1, ["http://u"], []⟩) ∧
    (downloadCore ⟨some "d1", none, none, none, true⟩
      ⟨fun _ => ⟨false, none, none, none⟩,
       .ok ⟨"s1", some [("p1", ⟨some "moda-json"⟩)],
         some [("e1", ⟨some "r", some "download"⟩)]⟩,
       .ok ⟨some [("e1", ⟨none, none, some "http://u", some "http://v", none, none, none⟩)]⟩,
       fun _ => ⟨true, 200, "OK", [1, 2]⟩⟩).1.body = .bytes [1, 2] :=
  ⟨C8_url_fallback_fetch.1 none _ (fun es h => Option.noConfusion h) (by decide),
   C8_url_fallback_fetch.2.1 none _
     [⟨none, none, none, some "http://h", some "http://x", none, none, none⟩]
     ⟨none, none, none, some "http://h", some "http://x", none, none, none⟩
     rfl (by decide) (by decide),
   (C8_url_fallback_fetch.2.2 _ _
     ⟨"s1", some [("p1", ⟨some "moda-json"⟩)], some [("e1", ⟨some "r", some "download"⟩)]⟩
     "p1" "e1" "r" ⟨some [("e1", ⟨none, none, some "http://u", some "http://v", none, none, none⟩)]⟩
     ⟨none, none, some "http://u", some "http://v", none, none, none⟩ "http://u"
     (by decide) (Or.inl rfl) rfl (by decide) (by decide) rfl (by decide)
     (by decide) (by decide)).1 rfl,
   ((C8_url_fallback_fetch.2.2 _ _
     ⟨"s1", some [("p1", ⟨some "moda-json"⟩)], some [("e1", ⟨some "r", some "download"⟩)]⟩
     "p1" "e1" "r" ⟨some [("e1", ⟨none, none, some "http://u", some "http://v", none, none, none⟩)]⟩
     ⟨none, none, some "http://u", some "http://v", none, none, none⟩ "http://u"
     (by decide) (Or.inl rfl) rfl (by decide) (by decide) rfl (by decide)
     (by decide) (by decide)).2 rfl).2.1⟩

/-- Every run of the handler with bypassCache=false either issues no
cache write and is not a fresh 200/MISS success, or is exactly an
`assemble` outcome. -/
theorem downloadCore_cases (req : DownloadRequest) (env : Env)
    (hby : req.bypassCache = false) :
    ((downloadCore req env).2.cachePuts = [] ∧
      ((downloadCore req env).1.status ≠ 200 ∨
        (downloadCore req env).1.headers.lookup "X-Cache" ≠ some "MISS")) ∨
    (∃ ename picked d fb fetches,
      downloadCore req env = assemble req ename picked d fb fetches) := by
  by_cases hd : truthy req.designId = true
  · unfold downloadCore
    rw [hd]
    simp only [hby, Bool.true_eq_false, if_false, Bool.false_eq_true]
    by_cases hh : ((env.cacheGet (reqKey req)).hit &&
        (env.cacheGet (reqKey req)).buffer.isSome) = true
    · left
      simp only [hh, if_true]
      exact ⟨rfl, Or.inr (by simp [hitResponse, List.lookup])⟩
    · have hh' : ((env.cacheGet (reqKey req)).hit &&
          (env.cacheGet (reqKey req)).buffer.isSome) = false := by
        cases h : ((env.cacheGet (reqKey req)).hit && (env.cacheGet (reqKey req)).buffer.isSome)
        · rfl
        · exact absurd h hh
      simp only [hh', Bool.false_eq_true, if_false]
      rcases hs : env.session with m | sd
      · left
        simp [downloadFresh, hs]
      · rcases hp : findModaParam (sd.parameters.getD []) with _ | pid
        · left
          simp [downloadFresh, hs, hp]
        · rcases he : findExport (req.exportType.getD "download") req.exportNameContains
              (sd.exports.getD []) with _ | ⟨eid, ename⟩
          · left
            simp [downloadFresh, hs, hp, he]
          · rcases hc : env.compute with m | cd
            · left
              simp [downloadFresh, hs, hp, he, hc]
            · rcases hl : (cd.exports.getD []).lookup eid with _ | sed
              · left
                simp [downloadFresh, hs, hp, he, hc, hl]
              · rcases hfb : (extract req.contentType sed).fileBuffer with _ | fb
                · rcases hu : (extract req.contentType sed).downloadUrl with _ | u
                  · left
                    simp [downloadFresh, hs, hp, he, hc, hl, hfb, hu]
                  · by_cases hok : (env.fetch u).ok = true
                    · right
                      refine ⟨ename, (extract req.contentType sed).picked, sed,
                        (env.fetch u).body, [u], ?_⟩
                      simp only [downloadFresh, hs, hp, he, hc, hl, hfb, hu, hok, if_true]
                    · have hok' : (env.fetch u).ok = false := by
                        cases h : (env.fetch u).ok
                        · rfl
                        · exact absurd h hok
                      left
                      simp [downloadFresh, hs, hp, he, hc, hl, hfb, hu, hok']
                · right
                  refine ⟨ename, (extract req.contentType sed).picked, sed, fb, [], ?_⟩
                  simp only [downloadFresh, hs, hp, he, hc, hl, hfb]
  · have hd' : truthy req.designId = false := by
      cases h : truthy req.designId
      · rfl
      · exact absurd h hd
    left
    unfold downloadCore
    rw [hd']
    simp [noEffects]

/-- Counterexample to claim C4: the first call stores under the
normalized content type while the identical second request probes with
its raw contentType field, so the second call misses the cache and is
served MISS with a fresh session. -/
theorem C4_counterexample :
    (downloadCore ⟨some "d1", none, none, none, false⟩
      ⟨exactCache none,
       .ok ⟨"s1", some [("p1", ⟨some "moda-json"⟩)],
         some [("e1", ⟨some "report", some "download"⟩)]⟩,
       .ok ⟨some [("e1", ⟨some (.arr [⟨some "application/pdf", some (.str "AAAA"),
         none, none, none, none, none, some "pdf"⟩]), none, none, none, none, none, none⟩)]⟩,
       fun _ => ⟨true, 200, "OK", []⟩⟩).2.cachePuts =
      [⟨⟨"d1", "download", none, some "application/pdf"⟩, [0, 0, 0],
        "application/pdf", "d1_report.pdf"⟩] ∧
    (downloadCore ⟨some "d1", none, none, none, false⟩
      ⟨exactCache (some ⟨⟨"d1", "download", none, some "application/pdf"⟩, [0, 0, 0],
         "application/pdf", "d1_report.pdf"⟩),
       .ok ⟨"s1", some [("p1", ⟨some "moda-json"⟩)],
         some [("e1", ⟨some "report", some "download"⟩)]⟩,
       .ok ⟨some [("e1", ⟨some (.arr [⟨some "application/pdf", some (.str "AAAA"),
         none, none, none, none, none, some "pdf"⟩]), none, none, none, none, none, none⟩)]⟩,
       fun _ => ⟨true, 200, "OK", []⟩⟩).1.headers.lookup "X-Cache" = some "MISS" ∧
    (downloadCore ⟨some "d1", none, none, none, false⟩
      ⟨exactCache (some ⟨⟨"d1", "download", none, some "application/pdf"⟩, [0, 0, 0],
         "application/pdf", "d1_report.pdf"⟩),
       .ok ⟨"s1", some [("p1", ⟨some "moda-json"⟩)],
         some [("e1", ⟨some "report", some "download"⟩)]⟩,
       .ok ⟨some [("e1", ⟨some (.arr [⟨some "application/pdf", some (.str "AAAA"),
         none, none, none, none, none, some "pdf"⟩]), none, none, none, none, none, none⟩)]⟩,
       fun _ => ⟨true, 200, "OK", []⟩⟩).2.sessionCalls = 1 :=
  ⟨by decide, by decide, by decide⟩

/-- Claim C4 amended: with the exact-key cache collaborator, repeating
an identical request after a successful population is a byte-identical
cache hit exactly when the stored key (criteria plus normalized
content type) equals the probe key (criteria plus the raw request
contentType). -/
theorem C4_repeat_request_hit (req : DownloadRequest) (env : Env) (p : CachePut)
    (hd : truthy req.designId = true)
    (hby : req.bypassCache = false)
    (_hput : (downloadCore req {env with cacheGet := exactCache none}).2.cachePuts = [p])
    (hbody : (downloadCore req {env with cacheGet := exactCache none}).1.body = .bytes p.buffer)
    (hkey : p.key = reqKey req)
    (hct : p.contentType ≠ "") (hfn : p.filename ≠ "") :
    downloadCore req {env with cacheGet := exactCache (some p)} =
      (⟨200,
        [("X-Cache", "HIT"), ("Content-Type", p.contentType),
         ("Content-Disposition", "attachment; filename=\"" ++ p.filename ++ "\""),
         ("Content-Length", toString p.buffer.length)],
        .bytes p.buffer⟩,
       noEffects) ∧
    (downloadCore req {env with cacheGet := exactCache (some p)}).1.body =
      (downloadCore req {env with cacheGet := exactCache none}).1.body := by
  have hget : ({env with cacheGet := exactCache (some p)} : Env).cacheGet (reqKey req) =
      ⟨true, some p.buffer, some p.contentType, some p.filename⟩ := by
    simp [exactCache, hkey]
  have hhit := downloadCore_hit_served req {env with cacheGet := exactCache (some p)}
    p.buffer p.contentType p.filename hd hby hget hct hfn
  refine ⟨hhit, ?_⟩
  rw [hhit, hbody]

/-- Witness for C4 amended: with a preferred content type equal to the
normalized one, the repeat of the request is a byte-identical HIT. -/
theorem C4_witness :
    downloadCore ⟨some "d1", none, none, some "application/pdf", false⟩
      ⟨exactCache (some ⟨⟨"d1", "download", none, some "application/pdf"⟩, [0, 0, 0],
         "application/pdf", "d1_report.pdf"⟩),
       .ok ⟨"s1", some [("p1", ⟨some "moda-json"⟩)],
         some [("e1", ⟨some "report", some "download"⟩)]⟩,
       .ok ⟨some [("e1", ⟨some (.arr [⟨some "application/pdf", some (.str "AAAA"),
         none, none, none, none, none, some "pdf"⟩]), none, none, none, none, none, none⟩)]⟩,
       fun _ => ⟨true, 200, "OK", []⟩⟩ =
      (⟨200,
        [("X-Cache", "HIT"), ("Content-Type", "application/pdf"),
         ("Content-Disposition", "attachment; filename=\"" ++ "d1_report.pdf" ++ "\""),
         ("Content-Length", toString ([0, 0, 0] : Bytes).length)],
        .bytes [0, 0, 0]⟩,
       noEffects) ∧
    (downloadCore ⟨some "d1", none, none, some "application/pdf", false⟩
      ⟨exactCache (some ⟨⟨"d1", "download", none, some "application/pdf"⟩, [0, 0, 0],
         "application/pdf", "d1_report.pdf"⟩),
       .ok ⟨"s1", some [("p1", ⟨some "moda-json"⟩)],
         some [("e1", ⟨some "report", some "download"⟩)]⟩,
       .ok ⟨some [("e1", ⟨some (.arr [⟨some "application/pdf", some (.str "AAAA"),
         none, none, none, none, none, some "pdf"⟩]), none, none, none, none, none, none⟩)]⟩,
       fun _ => ⟨true, 200, "OK", []⟩⟩).1.body =
    (downloadCore ⟨some "d1", none, none, some "application/pdf", false⟩
      ⟨exactCache none,
       .ok ⟨"s1", some [("p1", ⟨some "moda-json"⟩)],
         some [("e1", ⟨some "report", some "download"⟩)]⟩,
       .ok ⟨some [("e1", ⟨some (.arr [⟨some "application/pdf", some (.str "AAAA"),
         none, none, none, none, none, some "pdf"⟩]), none, none, none, none, none, none⟩)]⟩,
       fun _ => ⟨true, 200, "OK", []⟩⟩).1.body :=
  C4_repeat_request_hit ⟨some "d1", none, none, some "application/pdf", false⟩
    ⟨exactCache none,
     .ok ⟨"s1", some [("p1", ⟨some "moda-json"⟩)],
       some [("e1", ⟨some "report", some "download"⟩)]⟩,
     .ok ⟨some [("e1", ⟨some (.arr [⟨some "application/pdf", some (.str "AAAA"),
       none, none, none, none, none, some "pdf"⟩]), none, none, none, none, none, none⟩)]⟩,
     fun _ => ⟨true, 200, "OK", []⟩⟩
    ⟨⟨"d1", "download", none, some "application/pdf"⟩, [0, 0, 0],
      "application/pdf", "d1_report.pdf"⟩
    (by decide) rfl (by decide) (by decide) rfl (by decide) (by decide)

/-- Counterexample to claim C5: a fresh success with bypassCache=true
issues no cache write at all. -/
theorem C5_counterexample :
    (downloadCore ⟨some "d1", none, none, none, true⟩
      ⟨exactCache none,
       .ok ⟨"s1", some [("p1", ⟨some "moda-json"⟩)],
         some [("e1", ⟨some "report", some "download"⟩)]⟩,
       .ok ⟨some [("e1", ⟨some (.arr [⟨some "application/pdf", some (.str "AAAA"),
         none, none, none, none, none, some "pdf"⟩]), none, none, none, none, none, none⟩)]⟩,
       fun _ => ⟨true, 200, "OK", []⟩⟩).1.status = 200 ∧
    (downloadCore ⟨some "d1", none, none, none, true⟩
      ⟨exactCache none,
       .ok ⟨"s1", some [("p1", ⟨some "moda-json"⟩)],
         some [("e1", ⟨some "report", some "download"⟩)]⟩,
       .ok ⟨some [("e1", ⟨some (.arr [⟨some "application/pdf", some (.str "AAAA"),
         none, none, none, none, none, some "pdf"⟩]), none, none, none, none, none, none⟩)]⟩,
       fun _ => ⟨true, 200, "OK", []⟩⟩).1.headers.lookup "X-Cache" = some "MISS" ∧
    (downloadCore ⟨some "d1", none, none, none, true⟩
      ⟨exactCache none,
       .ok ⟨"s1", some [("p1", ⟨some "moda-json"⟩)],
         some [("e1", ⟨some "report", some "download"⟩)]⟩,
       .ok ⟨some [("e1", ⟨some (.arr [⟨some "application/pdf", some (.str "AAAA"),
         none, none, none, none, none, some "pdf"⟩]), none, none, none, none, none, none⟩)]⟩,
       fun _ => ⟨true, 200, "OK", []⟩⟩).2.cachePuts = [] :=
  ⟨by decide, by decide, by decide⟩

/-- Claim C5 amended: the fate of the detached cache write never
changes the response or the observable effects; with bypassCache=false
every issued write is keyed by the request criteria plus the written
normalized content type (the response Content-Type) and carries the
response bytes; and every fresh 200/MISS success with bypassCache=false
issues a write. -/
theorem C5_cache_write_semantics :
    (∀ (req : DownloadRequest) (env : Env) (pf₁ pf₂ : Bool),
      (downloadHandler req env pf₁).resp = (downloadHandler req env pf₂).resp ∧
      (downloadHandler req env pf₁).effects = (downloadHandler req env pf₂).effects) ∧
    (∀ (req : DownloadRequest) (env : Env), req.bypassCache = false →
      ∀ q ∈ (downloadCore req env).2.cachePuts,
        q.key = ⟨req.designId.getD "", req.exportType.getD "download",
          req.exportNameContains, some q.contentType⟩ ∧
        (downloadCore req env).1.body = .bytes q.buffer ∧
        ("Content-Type", q.contentType) ∈ (downloadCore req env).1.headers) ∧
    (∀ (req : DownloadRequest) (env : Env), req.bypassCache = false →
      (downloadCore req env).1.status = 200 →
      (downloadCore req env).1.headers.lookup "X-Cache" = some "MISS" →
      (downloadCore req env).2.cachePuts ≠ []) := by
  refine ⟨fun req env pf₁ pf₂ => ⟨rfl, rfl⟩, ?_, ?_⟩
  · intro req env hby q hq
    rcases downloadCore_cases req env hby with ⟨hput, _⟩ | ⟨ename, picked, d, fb, fetches, heq⟩
    · rw [hput] at hq
      simp at hq
    · rw [heq] at hq ⊢
      simp only [assemble, hby, Bool.false_eq_true, if_false, List.mem_singleton] at hq
      subst hq
      refine ⟨rfl, rfl, ?_⟩
      simp [assemble]
  · intro req env hby hst hmiss
    rcases downloadCore_cases req env hby with ⟨hput, hor⟩ | ⟨ename, picked, d, fb, fetches, heq⟩
    · rcases hor with h | h
      · exact absurd hst h
      · exact absurd hmiss h
    · rw [heq]
      simp [assemble, hby]

/-- Witness for C5 amended at a concrete fresh success. -/
theorem C5_witness :
    ((downloadHandler ⟨some "d1", none, none, none, false⟩
      ⟨exactCache none,
       .ok ⟨"s1", some [("p1", ⟨some "moda-json"⟩)],
         some [("e1", ⟨some "report", some "download"⟩)]⟩,
       .ok ⟨some [("e1", ⟨some (.arr [⟨some "application/pdf", some (.str "AAAA"),
         none, none, none, none, none, some "pdf"⟩]), none, none, none, none, none, none⟩)]⟩,
       fun _ => ⟨true, 200, "OK", []⟩⟩ true).resp =
     (downloadHandler ⟨some "d1", none, none, none, false⟩
      ⟨exactCache none,
       .ok ⟨"s1", some [("p1", ⟨some "moda-json"⟩)],
         some [("e1", ⟨some "report", some "download"⟩)]⟩,
       .ok ⟨some [("e1", ⟨some (.arr [⟨some "application/pdf", some (.str "AAAA"),
         none, none, none, none, none, some "pdf"⟩]), none, none, none, none, none, none⟩)]⟩,
       fun _ => ⟨true, 200, "OK", []⟩⟩ false).resp) ∧
    ((⟨⟨"d1", "download", none, some "application/pdf"⟩, [0, 0, 0],
        "application/pdf", "d1_report.pdf"⟩ : CachePut).key =
      ⟨"d1", "download", none, some "application/pdf"⟩ ∧
     (downloadCore ⟨some "d1", none, none, none, false⟩
      ⟨exactCache none,
       .ok ⟨"s1", some [("p1", ⟨some "moda-json"⟩)],
         some [("e1", ⟨some "report", some "download"⟩)]⟩,
       .ok ⟨some [("e1", ⟨some (.arr [⟨some "application/pdf", some (.str "AAAA"),
         none, none, none, none, none, some "pdf"⟩]), none, none, none, none, none, none⟩)]⟩,
       fun _ => ⟨true, 200, "OK", []⟩⟩).1.body = .bytes [0, 0, 0] ∧
     ("Content-Type", "application/pdf") ∈
       (downloadCore ⟨some "d1", none, none, none, false⟩
        ⟨exactCache none,
         .ok ⟨"s1", some [("p1", ⟨some "moda-json"⟩)],
           some [("e1", ⟨some "report", some "download"⟩)]⟩,
         .ok ⟨some [("e1", ⟨some (.arr [⟨some "application/pdf", some (.str "AAAA"),
           none, none, none, none, none, some "pdf"⟩]), none, none, none, none, none, none⟩)]⟩,
         fun _ => ⟨true, 200, "OK", []⟩⟩).1.headers) ∧
    (downloadCore ⟨some "d1", none, none, none, false⟩
      ⟨exactCache none,
       .ok ⟨"s1", some [("p1", ⟨some "moda-json"⟩)],
         some [("e1", ⟨some "report", some "download"⟩)]⟩,
       .ok ⟨some [("e1", ⟨some (.arr [⟨some "application/pdf", some (.str "AAAA"),
         none, none, none, none, none, some "pdf"⟩]), none, none, none, none, none, none⟩)]⟩,
       fun _ => ⟨true, 200, "OK", []⟩⟩).2.cachePuts ≠ [] :=
  ⟨(C5_cache_write_semantics.1 ⟨some "d1", none, none, none, false⟩
      ⟨exactCache none,
       .ok ⟨"s1", some [("p1", ⟨some "moda-json"⟩)],
         some [("e1", ⟨some "report", some "download"⟩)]⟩,
       .ok ⟨some [("e1", ⟨some (.arr [⟨some "application/pdf", some (.str "AAAA"),
         none, none, none, none, none, some "pdf"⟩]), none, none, none, none, none, none⟩)]⟩,
       fun _ => ⟨true, 200, "OK", []⟩⟩ true false).1,
   C5_cache_write_semantics.2.1 ⟨some "d1", none, none, none, false⟩
      ⟨exactCache none,
       .ok ⟨"s1", some [("p1", ⟨some "moda-json"⟩)],
         some [("e1", ⟨some "report", some "download"⟩)]⟩,
       .ok ⟨some [("e1", ⟨some (.arr [⟨some "application/pdf", some (.str "AAAA"),
         none, none, none, none, none, some "pdf"⟩]), none, none, none, none, none, none⟩)]⟩,
       fun _ => ⟨true, 200, "OK", []⟩⟩ rfl
     ⟨⟨"d1", "download", none, some "application/pdf"⟩, [0, 0, 0],
       "application/pdf", "d1_report.pdf"⟩ (by decide),
   C5_cache_write_semantics.2.2 ⟨some "d1", none, none, none, false⟩
      ⟨exactCache none,
       .ok ⟨"s1", some [("p1", ⟨some "moda-json"⟩)],
         some [("e1", ⟨some "report", some "download"⟩)]⟩,
       .ok ⟨some [("e1", ⟨some (.arr [⟨some "application/pdf", some (.str "AAAA"),
         none, none, none, none, none, some "pdf"⟩]), none, none, none, none, none, none⟩)]⟩,
       fun _ => ⟨true, 200, "OK", []⟩⟩ rfl (by decide) (by decide)⟩
